import Mathlib

/-!
Shallow embedding of the drift-detection core of the
Model-Drift-Detection-and-Monitoring-System repository.

Numeric samples are modelled as lists of rationals; a missing value (NaN in
the numpy arrays of the source) is `Option.none`.  The histogram / proportion
part of the PSI computation is exact rational arithmetic; only the final
`(c - b) * ln (c / b)` terms live in `ℝ` (via `Real.log`), mirroring
`backend/app/ml/drift_detector.py`.  The report orchestration mirrors
`backend/app/services/monitoring_service.py`, and the background worker cycle
mirrors `monitoring-worker/worker.py`.
-/

namespace DriftSpec

/-- Status of a single drift check (drifted when the threshold test holds,
else stable). -/
inductive Status where
  | stable
  | drifted
  deriving DecidableEq

/-- Severity bands used in `DriftDetector.detect_feature_drift`. -/
inductive Severity where
  | none
  | low
  | medium
  | high
  deriving DecidableEq

/-- Overall health values used by `MonitoringService.get_drift_report`. -/
inductive Health where
  | healthy
  | warning
  | critical
  | unknown
  deriving DecidableEq

/-- Numeric rank of a severity band, used to state monotonicity. -/
def Severity.rank : Severity → ℕ
  | .none => 0
  | .low => 1
  | .medium => 2
  | .high => 3

/-- Configuration of `DriftDetector.__init__` (and `Settings`): defaults
`psi_threshold = 0.25`, `ks_threshold = 0.05`, `n_bins = 10`. -/
structure DetectorConfig where
  psi_threshold : ℝ
  ks_threshold : ℝ
  n_bins : ℕ

/-- Default detector configuration (`DriftDetector` defaults, equal to the
`Settings.PSI_THRESHOLD` / `Settings.KS_THRESHOLD` defaults in `config.py`). -/
noncomputable def defaultConfig : DetectorConfig :=
  { psi_threshold := 0.25, ks_threshold := 0.05, n_bins := 10 }

/-- Drop missing values: `baseline[~np.isnan(baseline)]`. -/
def dropNaN (xs : List (Option ℚ)) : List ℚ :=
  xs.filterMap id

/-- Minimum of a list of rationals (`arr.min()`); `0` on the empty list,
which the source never reaches because of its emptiness guard. -/
def listMin (xs : List ℚ) : ℚ :=
  xs.foldr min (xs.headD 0)

/-- Maximum of a list of rationals (`arr.max()`); `0` on the empty list. -/
def listMax (xs : List ℚ) : ℚ :=
  xs.foldr max (xs.headD 0)

/-- Interior bin edges of `np.linspace(min_val, max_val, n_bins + 1)` after
the source replaces the first and last edge by `-inf` / `+inf`: only the
`n_bins - 1` interior edges remain relevant for binning. -/
def binEdges (lo hi : ℚ) (nBins : ℕ) : List ℚ :=
  (List.range (nBins - 1)).map
    (fun (k : ℕ) => lo + ((k : ℚ) + 1) * (hi - lo) / (nBins : ℚ))

/-- Index of the bin a value falls into: with the outer edges at `-inf` and
`+inf`, `np.histogram` places `v` into the bin counting the interior edges
that are `≤ v`. -/
def binIndex (edges : List ℚ) (v : ℚ) : ℕ :=
  edges.countP (fun e => e ≤ v)

/-- Per-bin counts of `np.histogram(arr, bins=bins)` with `n` bins whose
outer edges are `±inf`. -/
def histCounts (edges : List ℚ) (nBins : ℕ) (xs : List ℚ) : List ℕ :=
  (List.range nBins).map (fun j => xs.countP (fun v => binIndex edges v = j))

/-- Epsilon `1e-10` added to every proportion to avoid `log(0)`. -/
def epsQ : ℚ := 1 / 10 ^ 10

/-- Per-bin proportions plus epsilon:
`counts / len + 1e-10` (`baseline_percents`, `current_percents`). -/
def percents (counts : List ℕ) (total : ℕ) : List ℚ :=
  counts.map (fun (k : ℕ) => (k : ℚ) / (total : ℚ) + epsQ)

/-- PSI sum over paired per-bin proportions:
`np.sum((current_percents - baseline_percents) * np.log(current_percents / baseline_percents))`. -/
noncomputable def psiSum (bp cp : List ℚ) : ℝ :=
  ((bp.zip cp).map
    (fun p => ((p.2 : ℝ) - (p.1 : ℝ)) * Real.log ((p.2 : ℝ) / (p.1 : ℝ)))).sum

/-- Embedding of `DriftDetector.calculate_psi`.  `nBins? = Option.none`
means the caller did not pass `n_bins`, so `cfg.n_bins` is used.  The
`try/except` around the arithmetic never fires in this total model (it is the
ComputationFailure guard of the source). -/
noncomputable def calculate_psi (cfg : DetectorConfig)
    (baseline current : List (Option ℚ)) (nBins? : Option ℕ) : ℝ :=
  let nBins := nBins?.getD cfg.n_bins
  let b := dropNaN baseline
  let c := dropNaN current
  if b.length = 0 ∨ c.length = 0 then 0
  else
    let lo := min (listMin b) (listMin c)
    let hi := max (listMax b) (listMax c)
    if lo = hi then 0
    else
      let edges := binEdges lo hi nBins
      psiSum (percents (histCounts edges nBins b) b.length)
        (percents (histCounts edges nBins c) c.length)

/-- Empirical CDF value of a sample at `t` (fraction of points `≤ t`). -/
def ecdf (xs : List ℚ) (t : ℚ) : ℚ :=
  (xs.countP (fun v => v ≤ t) : ℚ) / (xs.length : ℚ)

/-- Two-sample Kolmogorov-Smirnov statistic
`sup |F_baseline - F_current|`, attained at a data point of either sample;
this is the statistic `stats.ks_2samp` computes. -/
def ksStatistic (xs ys : List ℚ) : ℚ :=
  ((xs ++ ys).map (fun t => |ecdf xs t - ecdf ys t|)).foldr max 0

/-- Abstract p-value routine standing for the scipy survival-function
computation inside `stats.ks_2samp` (before its final clip). -/
def KsProb : Type := List ℚ → List ℚ → ℝ

/-- Clip into `[0,1]`: `np.clip(prob, 0, 1)`, applied by `stats.ks_2samp`
to the probability it returns. -/
noncomputable def clip01 (x : ℝ) : ℝ :=
  min 1 (max 0 x)

/-- Embedding of `DriftDetector.ks_test`: drop NaNs, return `(0.0, 1.0)` when
either cleaned sample is empty, otherwise the exact two-sample KS statistic
and the clipped p-value produced by the scipy routine `prob`. -/
noncomputable def ks_test (prob : KsProb)
    (baseline current : List (Option ℚ)) : ℝ × ℝ :=
  let b := dropNaN baseline
  let c := dropNaN current
  if b.length = 0 ∨ c.length = 0 then (0, 1)
  else ((ksStatistic b c : ℝ), clip01 (prob b c))

/-- Insert into a sorted list of rationals (helper for the median). -/
def insertSorted (x : ℚ) : List ℚ → List ℚ
  | [] => [x]
  | y :: ys => if x ≤ y then x :: y :: ys else y :: insertSorted x ys

/-- Insertion sort on rationals (helper for the median). -/
def sortQ (xs : List ℚ) : List ℚ :=
  xs.foldr insertSorted []

/-- Mean of a sample (`np.nanmean` after NaN removal); the empty sample
gives `0` here where numpy gives NaN — no claim depends on that value. -/
def sampleMean (xs : List ℚ) : ℚ :=
  xs.sum / (xs.length : ℚ)

/-- Population variance of a sample (`ddof = 0`, as `np.nanstd` uses). -/
def sampleVar (xs : List ℚ) : ℚ :=
  ((xs.map (fun x => (x - sampleMean xs) ^ 2)).sum) / (xs.length : ℚ)

/-- Standard deviation (`np.nanstd` after NaN removal). -/
noncomputable def sampleStd (xs : List ℚ) : ℝ :=
  Real.sqrt ((sampleVar xs : ℚ) : ℝ)

/-- Median (`np.nanmedian` after NaN removal): middle element of the sorted
sample, or the average of the two middle elements for even length. -/
def sampleMedian (xs : List ℚ) : ℚ :=
  let s := sortQ xs
  let n := s.length
  if n = 0 then 0
  else if n % 2 = 1 then s.getD (n / 2) 0
  else (s.getD (n / 2 - 1) 0 + s.getD (n / 2) 0) / 2

/-- Summary statistics block (`baseline_stats` / `current_stats`). -/
structure SummaryStats where
  mean : ℝ
  std : ℝ
  min : ℝ
  max : ℝ
  median : ℝ

/-- Summary statistics of one column (the `np.nan*` aggregates of the
source, which all ignore NaN values). -/
noncomputable def summaryStats (values : List (Option ℚ)) : SummaryStats :=
  let v := dropNaN values
  { mean := ((sampleMean v : ℚ) : ℝ)
    std := sampleStd v
    min := ((listMin v : ℚ) : ℝ)
    max := ((listMax v : ℚ) : ℝ)
    median := ((sampleMedian v : ℚ) : ℝ) }

/-- Epsilon `1e-10` as a real, used in the percentage-change guards. -/
noncomputable def epsR : ℝ := 1 / 10 ^ 10

/-- Relative-change block (`distribution_shift`). -/
structure DistributionShift where
  mean_change_pct : ℝ
  std_change_pct : ℝ

/-- Per-feature drift report dictionary built by
`DriftDetector.detect_feature_drift`. -/
structure FeatureDriftResult where
  feature_name : String
  drift_score : ℝ
  drift_method : String
  threshold : ℝ
  status : Status
  severity : Severity
  ks_statistic : ℝ
  ks_p_value : ℝ
  baseline_stats : SummaryStats
  current_stats : SummaryStats
  distribution_shift : DistributionShift

/-- Severity bands of `detect_feature_drift` (lines 183-190 of
`drift_detector.py`): `high` for PSI ≥ 0.5, `medium` for PSI ≥ 0.25,
`low` for PSI ≥ 0.1, else `none`. -/
noncomputable def severityOf (psi : ℝ) : Severity :=
  if 0.5 ≤ psi then .high
  else if 0.25 ≤ psi then .medium
  else if 0.1 ≤ psi then .low
  else .none

/-- Body of the per-feature loop of `DriftDetector.detect_feature_drift`
(lines 169-236): PSI and KS on the two column samples, status from the PSI
threshold, severity from the fixed bands, summary statistics and
percentage deltas. -/
noncomputable def featureReport (cfg : DetectorConfig) (prob : KsProb)
    (feature : String) (baselineValues currentValues : List (Option ℚ)) :
    FeatureDriftResult :=
  let psi := calculate_psi cfg baselineValues currentValues Option.none
  let kst := ks_test prob baselineValues currentValues
  let bStats := summaryStats baselineValues
  let cStats := summaryStats currentValues
  { feature_name := feature
    drift_score := psi
    drift_method := "PSI"
    threshold := cfg.psi_threshold
    status := if cfg.psi_threshold ≤ psi then .drifted else .stable
    severity := severityOf psi
    ks_statistic := kst.1
    ks_p_value := kst.2
    baseline_stats := bStats
    current_stats := cStats
    distribution_shift :=
      { mean_change_pct := (cStats.mean - bStats.mean) / (bStats.mean + epsR) * 100
        std_change_pct := (cStats.std - bStats.std) / (bStats.std + epsR) * 100 } }

/-- Column-oriented view of a pandas DataFrame built from a list of feature
dictionaries: named columns of optional (possibly NaN) rationals. -/
structure DataFrame where
  cols : List (String × List (Option ℚ))

/-- Column names of the frame (`df.columns`). -/
def DataFrame.colNames (df : DataFrame) : List String :=
  df.cols.map Prod.fst

/-- Column-presence test (`feature in df.columns`). -/
def DataFrame.hasCol (df : DataFrame) (f : String) : Bool :=
  df.cols.any (fun c => c.1 == f)

/-- Values of a column (`df[feature].values`); `[]` when absent. -/
def DataFrame.col (df : DataFrame) (f : String) : List (Option ℚ) :=
  ((df.cols.find? (fun c => c.1 == f)).map Prod.snd).getD []

/-- Number of rows (`len(df)`); the empty `pd.DataFrame()` has no columns
and zero rows. -/
def DataFrame.nRows (df : DataFrame) : ℕ :=
  (df.cols.map (fun c => c.2.length)).foldr max 0

/-- Embedding of `DriftDetector.detect_feature_drift`: iterate the requested
feature names (defaulting to the baseline columns), skip features missing
from either frame, and build one per-feature report for the rest, in input
order. -/
noncomputable def detect_feature_drift (cfg : DetectorConfig) (prob : KsProb)
    (baseline current : DataFrame) (featureNames? : Option (List String)) :
    List FeatureDriftResult :=
  let names := featureNames?.getD baseline.colNames
  (names.filter (fun f => baseline.hasCol f && current.hasCol f)).map
    (fun f => featureReport cfg prob f (baseline.col f) (current.col f))

/-- Prediction-level drift report dictionary built by
`DriftDetector.detect_prediction_drift`. -/
structure PredictionDriftResult where
  method : String
  statistic : ℝ
  p_value : ℝ
  threshold : ℝ
  status : Status
  baseline_fraud_rate : ℝ
  current_fraud_rate : ℝ
  change_pct : ℝ

/-- Embedding of `DriftDetector.detect_prediction_drift`: KS test only,
`drifted` iff the p-value is below `ks_threshold`, means of both score
arrays as fraud rates. -/
noncomputable def detect_prediction_drift (cfg : DetectorConfig) (prob : KsProb)
    (baselinePreds currentPreds : List ℚ) : PredictionDriftResult :=
  let kst := ks_test prob (baselinePreds.map some) (currentPreds.map some)
  let br := ((sampleMean baselinePreds : ℚ) : ℝ)
  let cr := ((sampleMean currentPreds : ℚ) : ℝ)
  { method := "KS_test"
    statistic := kst.1
    p_value := kst.2
    threshold := cfg.ks_threshold
    status := if kst.2 < cfg.ks_threshold then .drifted else .stable
    baseline_fraud_rate := br
    current_fraud_rate := cr
    change_pct := (cr - br) / (br + epsR) * 100 }

/-- Overall-status block of a monitoring report. -/
structure OverallStatus where
  health : Health
  data_drift_detected : Bool
  concept_drift_detected : Bool
  performance_degraded : Bool
  deriving DecidableEq

/-- Performance metrics block (`_calculate_performance_metrics` output);
never inspected by the drift logic, each field optional. -/
structure PerfMetrics where
  accuracy : Option ℚ
  precision : Option ℚ
  recall_score : Option ℚ
  f1_score : Option ℚ
  auc_roc : Option ℚ

/-- Alert dictionary built by `MonitoringService._generate_alerts`.  The
formatted message and hashed id of the source are presentation strings and
are not modelled; the drift-relevant fields are. -/
structure Alert where
  type : String
  severity : Severity
  feature_name : String
  recommendation : String

/-- Recommendation policy of `MonitoringService._get_recommendation`. -/
def getRecommendation (r : FeatureDriftResult) : String :=
  if r.severity == .high then
    "Investigate " ++ r.feature_name ++ " data pipeline. Consider retraining model."
  else if r.severity == .medium then
    "Monitor " ++ r.feature_name ++ " closely. Plan retraining."
  else "Continue monitoring."

/-- Embedding of `MonitoringService._generate_alerts`: one alert per feature
report whose severity is `high` or `medium`; the `prediction_drift` argument
is accepted but never read, exactly as in the source. -/
def generateAlerts (featureReports : List FeatureDriftResult)
    (_predictionDrift : Option PredictionDriftResult) : List Alert :=
  (featureReports.filter (fun r => r.severity == .high || r.severity == .medium)).map
    (fun r =>
      { type := "data_drift", severity := r.severity,
        feature_name := r.feature_name, recommendation := getRecommendation r })

/-- Truth value of the guarded test on lines 88-90 of the monitoring
service: the prediction drift result exists and its status is drifted. -/
def predDrifted : Option PredictionDriftResult → Bool
  | some p => p.status == .drifted
  | Option.none => false

/-- Overall-health decision of `MonitoringService.get_drift_report`
(lines 84-101): `critical` when at least two feature reports have severity
`high`; else `warning` when data drift or concept drift was detected; else
`healthy`. -/
def overallHealth (featureReports : List FeatureDriftResult)
    (predictionDrift : Option PredictionDriftResult) : Health :=
  let dataDrift := featureReports.any (fun r => r.status == .drifted)
  let conceptDrift := predDrifted predictionDrift
  let highCount := featureReports.countP (fun r => r.severity == .high)
  if 2 ≤ highCount then .critical
  else if dataDrift || conceptDrift then .warning
  else .healthy

/-- Monitoring report dictionary of `MonitoringService.get_drift_report`.
The wall-clock fields (`report_timestamp`, `time_window`) are outside the
embedding. -/
structure MonitoringReport where
  total_predictions : ℕ
  model_version : String
  overall_status : OverallStatus
  feature_drift : List FeatureDriftResult
  prediction_drift : Option PredictionDriftResult
  performance_metrics : Option PerfMetrics
  alerts : List Alert

/-- Embedding of `MonitoringService._empty_report`: the defined report for a
window with no data (`performance_metrics` is the empty dictionary there,
modelled as `Option.none`). -/
def emptyReport (modelVersion : String) : MonitoringReport :=
  { total_predictions := 0
    model_version := modelVersion
    overall_status :=
      { health := .unknown, data_drift_detected := false,
        concept_drift_detected := false, performance_degraded := false }
    feature_drift := []
    prediction_drift := Option.none
    performance_metrics := Option.none
    alerts := [] }

/-- Report construction of `MonitoringService.get_drift_report` for a
non-empty current window (lines 62-122): feature drift over all baseline
columns, prediction drift of the current scores against a constant `0.02`
baseline rate when any scores exist, the fixed health rule, and the derived
alerts. -/
noncomputable def driftReportCore (cfg : DetectorConfig) (prob : KsProb)
    (baseline current : DataFrame) (currentPreds : List ℚ)
    (perf : PerfMetrics) (modelVersion : String) : MonitoringReport :=
  let featureReports := detect_feature_drift cfg prob baseline current Option.none
  let predictionDrift :=
    if 0 < currentPreds.length then
      some (detect_prediction_drift cfg prob
        (List.replicate currentPreds.length (2 / 100)) currentPreds)
    else Option.none
  { total_predictions := current.nRows
    model_version := modelVersion
    overall_status :=
      { health := overallHealth featureReports predictionDrift
        data_drift_detected := featureReports.any (fun r => r.status == .drifted)
        concept_drift_detected := predDrifted predictionDrift
        performance_degraded := false }
    feature_drift := featureReports
    prediction_drift := predictionDrift
    performance_metrics := some perf
    alerts := generateAlerts featureReports predictionDrift }

/-- Embedding of `MonitoringService._store_drift_report`.  Modelled from the
spec: the body of the `try` block ("Implementation would store the report",
skipped for brevity in the source) is the `persist_report` collaborator of
the external store from spec section 6; the `except` clause catches any
error it raises and only logs it. -/
def store_drift_report {E : Type} (persist : MonitoringReport → Except E Unit)
    (report : MonitoringReport) : Except E Unit :=
  match persist report with
  | .ok _ => .ok ()
  | .error _ => .ok ()

/-- Embedding of `MonitoringService.get_drift_report`: short-circuit to the
empty report when the current window has no rows; otherwise build the full
report, attempt to persist it, and return it.  An exception from the
persistence step would propagate (the outer handler of the source logs and
re-raises), but `store_drift_report` never raises. -/
noncomputable def get_drift_report {E : Type}
    (persist : MonitoringReport → Except E Unit) (cfg : DetectorConfig)
    (prob : KsProb) (baseline current : DataFrame) (currentPreds : List ℚ)
    (perf : PerfMetrics) (modelVersion : String) : Except E MonitoringReport :=
  if current.nRows = 0 then .ok (emptyReport modelVersion)
  else
    let report := driftReportCore cfg prob baseline current currentPreds perf modelVersion
    match store_drift_report persist report with
    | .ok _ => .ok report
    | .error e => .error e

/-- Names of the three sub-steps of one worker monitoring cycle. -/
inductive WorkerStep where
  | metrics
  | drift
  | health
  deriving DecidableEq

/-- Inner `try/except` of each worker sub-step (`_calculate_metrics`,
`_check_drift`, `_update_system_health` each catch every exception of their
body and only log it). -/
def stepCaught {E : Type} (body : Except E Unit) : Except E Unit :=
  match body with
  | .ok _ => .ok ()
  | .error _ => .ok ()

/-- Body of the outer `try` of `MonitoringWorker.run_monitoring_cycle`: run
the three wrapped sub-steps in order, recording which executed, then commit.
The commit is the only action not individually wrapped. -/
def cycleBody {E : Type} (metrics drift health commit : Except E Unit) :
    List WorkerStep × Except E Unit :=
  match stepCaught metrics with
  | .error e => ([.metrics], .error e)
  | .ok _ =>
    match stepCaught drift with
    | .error e => ([.metrics, .drift], .error e)
    | .ok _ =>
      match stepCaught health with
      | .error e => ([.metrics, .drift, .health], .error e)
      | .ok _ => ([.metrics, .drift, .health], commit)

/-- Embedding of `MonitoringWorker.run_monitoring_cycle`: the outer
`try/except` catches any exception escaping the body (logging and rolling
back), so the cycle itself never raises.  The first component records which
sub-steps were entered. -/
def run_monitoring_cycle {E : Type} (metrics drift health commit : Except E Unit) :
    List WorkerStep × Except E Unit :=
  let r := cycleBody metrics drift health commit
  (r.1, match r.2 with
        | .ok _ => .ok ()
        | .error _ => .ok ())

/-- Degenerate scipy p-value routine (always `0`), used to instantiate the
abstract KS probability parameter on concrete inputs. -/
noncomputable def prob0 : KsProb := fun _ _ => 0

/-- Another degenerate p-value routine (always `1/2`). -/
noncomputable def probHalf : KsProb := fun _ _ => 1 / 2

/-- The empty frame `pd.DataFrame()`. -/
def emptyDF : DataFrame := ⟨[]⟩

/-- One-column concrete frame used to exercise the detector. -/
def oneColDF : DataFrame := ⟨[("amount", [some 1, some 2])]⟩

/-- Performance snapshot with every metric absent. -/
def perf0 : PerfMetrics :=
  ⟨Option.none, Option.none, Option.none, Option.none, Option.none⟩

/-- Persist action that always succeeds. -/
def persistOk : MonitoringReport → Except String Unit := fun _ => .ok ()

/-- Persist action that always throws. -/
def persistFail : MonitoringReport → Except String Unit := fun _ => .error "db down"

/-- Concrete feature drift record with the given name, score, status and
severity (remaining fields fixed), used for concrete health-rule inputs. -/
noncomputable def mkFR (name : String) (score : ℝ) (st : Status)
    (sev : Severity) : FeatureDriftResult :=
  { feature_name := name
    drift_score := score
    drift_method := "PSI"
    threshold := 0.25
    status := st
    severity := sev
    ks_statistic := 0
    ks_p_value := 1
    baseline_stats := ⟨0, 0, 0, 0, 0⟩
    current_stats := ⟨0, 0, 0, 0, 0⟩
    distribution_shift := ⟨0, 0⟩ }

/-- Two high-severity drifted features (rest empty). -/
noncomputable def frsTwoHigh : List FeatureDriftResult :=
  [mkFR "a" 0.6 .drifted .high, mkFR "b" 0.7 .drifted .high]

/-- One high-severity drifted feature plus one stable feature with severity
`none` and one with severity `low`. -/
noncomputable def frsOneHigh : List FeatureDriftResult :=
  [mkFR "a" 0.6 .drifted .high, mkFR "b" 0.05 .stable .none,
    mkFR "c" 0.15 .stable .low]

/-! Helper lemmas. -/

lemma dropNaN_map_some (xs : List ℚ) : dropNaN (xs.map some) = xs := by
  induction xs with
  | nil => rfl
  | cons x t ih => simp [dropNaN]

lemma psiSum_self (bp : List ℚ) : psiSum bp bp = 0 := by
  induction bp with
  | nil => simp [psiSum]
  | cons x t ih => simpa [psiSum] using ih

lemma calculate_psi_self (cfg : DetectorConfig) (v : List (Option ℚ))
    (nBins? : Option ℕ) : calculate_psi cfg v v nBins? = 0 := by
  simp only [calculate_psi]
  split
  · rfl
  · split
    · rfl
    · exact psiSum_self _

lemma psi_term_nonneg (b c : ℝ) (hb : 0 < b) (hc : 0 < c) :
    0 ≤ (c - b) * Real.log (c / b) := by
  rcases le_total b c with h | h
  · have h1 : (1 : ℝ) ≤ c / b := (one_le_div hb).mpr h
    exact mul_nonneg (by linarith) (Real.log_nonneg h1)
  · have h0 : 0 < c / b := div_pos hc hb
    have h1 : c / b ≤ 1 := (div_le_one hb).mpr h
    have h2 : Real.log (c / b) ≤ 0 := Real.log_nonpos (le_of_lt h0) h1
    have h3 : c - b ≤ 0 := by linarith
    nlinarith

lemma percents_pos (counts : List ℕ) (total : ℕ) :
    ∀ q ∈ percents counts total, 0 < q := by
  intro q hq
  obtain ⟨k, _, rfl⟩ := List.mem_map.mp hq
  have h1 : (0 : ℚ) ≤ (k : ℚ) / (total : ℚ) :=
    div_nonneg (Nat.cast_nonneg k) (Nat.cast_nonneg total)
  have h2 : (0 : ℚ) < epsQ := by norm_num [epsQ]
  linarith

lemma psiSum_nonneg (bp cp : List ℚ) (hb : ∀ q ∈ bp, 0 < q)
    (hc : ∀ q ∈ cp, 0 < q) : 0 ≤ psiSum bp cp := by
  apply List.sum_nonneg
  intro x hx
  simp only [psiSum, List.mem_map] at hx
  obtain ⟨p, hp, rfl⟩ := hx
  have h1 := hb p.1 (List.of_mem_zip hp).1
  have h2 := hc p.2 (List.of_mem_zip hp).2
  exact psi_term_nonneg _ _ (by exact_mod_cast h1) (by exact_mod_cast h2)

lemma calculate_psi_nonneg (cfg : DetectorConfig)
    (baseline current : List (Option ℚ)) (nBins? : Option ℕ) :
    0 ≤ calculate_psi cfg baseline current nBins? := by
  simp only [calculate_psi]
  split
  · exact le_refl 0
  · split
    · exact le_refl 0
    · exact psiSum_nonneg _ _ (percents_pos _ _) (percents_pos _ _)

lemma ecdf_nonneg (xs : List ℚ) (t : ℚ) : 0 ≤ ecdf xs t := by
  unfold ecdf
  positivity

lemma ecdf_le_one (xs : List ℚ) (t : ℚ) : ecdf xs t ≤ 1 := by
  unfold ecdf
  rcases Nat.eq_zero_or_pos xs.length with h | h
  · rw [h]
    norm_num
  · apply div_le_one_of_le₀
    · exact_mod_cast List.countP_le_length _
    · positivity

lemma foldr_max_nonneg (l : List ℚ) : 0 ≤ l.foldr max 0 := by
  induction l with
  | nil => exact le_refl 0
  | cons x t ih => exact le_trans ih (by simp [List.foldr])

lemma foldr_max_le_one (l : List ℚ) (h : ∀ x ∈ l, x ≤ 1) :
    l.foldr max 0 ≤ 1 := by
  induction l with
  | nil => norm_num
  | cons x t ih =>
    simp only [List.foldr, max_le_iff]
    exact ⟨h x (by simp), ih (fun y hy => h y (by simp [hy]))⟩

lemma ksStatistic_nonneg (xs ys : List ℚ) : 0 ≤ ksStatistic xs ys :=
  foldr_max_nonneg _

lemma ksStatistic_le_one (xs ys : List ℚ) : ksStatistic xs ys ≤ 1 := by
  apply foldr_max_le_one
  intro x hx
  simp only [List.mem_map] at hx
  obtain ⟨t, _, rfl⟩ := hx
  have h1 := ecdf_nonneg xs t
  have h2 := ecdf_le_one xs t
  have h3 := ecdf_nonneg ys t
  have h4 := ecdf_le_one ys t
  rw [abs_le]
  constructor <;> linarith

lemma clip01_nonneg (x : ℝ) : 0 ≤ clip01 x := by
  unfold clip01
  apply le_min
  · norm_num
  · exact le_max_left 0 x

lemma clip01_le_one (x : ℝ) : clip01 x ≤ 1 :=
  min_le_left 1 _

lemma ks_test_bounds (prob : KsProb) (baseline current : List (Option ℚ)) :
    0 ≤ (ks_test prob baseline current).1 ∧ (ks_test prob baseline current).1 ≤ 1
    ∧ 0 ≤ (ks_test prob baseline current).2 ∧ (ks_test prob baseline current).2 ≤ 1 := by
  simp only [ks_test]
  split
  · norm_num
  · dsimp only
    refine ⟨?_, ?_, clip01_nonneg _, clip01_le_one _⟩
    · exact_mod_cast ksStatistic_nonneg _ _
    · exact_mod_cast ksStatistic_le_one _ _

lemma featureReport_status (cfg : DetectorConfig) (prob : KsProb) (f : String)
    (b c : List (Option ℚ)) :
    (featureReport cfg prob f b c).status =
      if cfg.psi_threshold ≤ calculate_psi cfg b c Option.none then .drifted
      else .stable := rfl

lemma featureReport_severity (cfg : DetectorConfig) (prob : KsProb) (f : String)
    (b c : List (Option ℚ)) :
    (featureReport cfg prob f b c).severity =
      severityOf (calculate_psi cfg b c Option.none) := rfl

lemma featureReport_score (cfg : DetectorConfig) (prob : KsProb) (f : String)
    (b c : List (Option ℚ)) :
    (featureReport cfg prob f b c).drift_score =
      calculate_psi cfg b c Option.none := rfl

lemma featureReport_kp (cfg : DetectorConfig) (prob : KsProb) (f : String)
    (b c : List (Option ℚ)) :
    (featureReport cfg prob f b c).ks_p_value = (ks_test prob b c).2 := rfl

lemma mem_detect_feature_drift {cfg : DetectorConfig} {prob : KsProb}
    {bdf cdf : DataFrame} {names? : Option (List String)}
    {r : FeatureDriftResult}
    (h : r ∈ detect_feature_drift cfg prob bdf cdf names?) :
    ∃ f, r = featureReport cfg prob f (bdf.col f) (cdf.col f) := by
  obtain ⟨f, _, rfl⟩ := List.mem_map.mp h
  exact ⟨f, rfl⟩

lemma severityOf_eq_none_iff (p : ℝ) : severityOf p = .none ↔ p < 0.1 := by
  unfold severityOf
  split_ifs with h1 h2 h3
  · exact iff_of_false (by decide) (fun hc => by linarith)
  · exact iff_of_false (by decide) (fun hc => by linarith)
  · exact iff_of_false (by decide) (fun hc => by linarith)
  · exact iff_of_true rfl (not_le.mp h3)

lemma severityOf_eq_low_iff (p : ℝ) :
    severityOf p = .low ↔ 0.1 ≤ p ∧ p < 0.25 := by
  unfold severityOf
  split_ifs with h1 h2 h3
  · exact iff_of_false (by decide) (fun hc => by linarith [hc.2])
  · exact iff_of_false (by decide) (fun hc => by linarith [hc.2])
  · exact iff_of_true rfl ⟨h3, not_le.mp h2⟩
  · exact iff_of_false (by decide) (fun hc => absurd hc.1 h3)

lemma severityOf_eq_medium_iff (p : ℝ) :
    severityOf p = .medium ↔ 0.25 ≤ p ∧ p < 0.5 := by
  unfold severityOf
  split_ifs with h1 h2 h3
  · exact iff_of_false (by decide) (fun hc => by linarith [hc.2])
  · exact iff_of_true rfl ⟨h2, not_le.mp h1⟩
  · exact iff_of_false (by decide) (fun hc => absurd hc.1 h2)
  · exact iff_of_false (by decide) (fun hc => absurd hc.1 h2)

lemma severityOf_eq_high_iff (p : ℝ) : severityOf p = .high ↔ 0.5 ≤ p := by
  unfold severityOf
  split_ifs with h1 h2 h3
  · exact iff_of_true rfl h1
  · exact iff_of_false (by decide) h1
  · exact iff_of_false (by decide) h1
  · exact iff_of_false (by decide) h1

lemma severityOf_mono (p q : ℝ) (hpq : p ≤ q) :
    (severityOf p).rank ≤ (severityOf q).rank := by
  unfold severityOf
  split_ifs with h1 h2 h3 h4 h5 h6 <;>
    simp only [Severity.rank] <;> first | omega | linarith

lemma overallHealth_eq (frs : List FeatureDriftResult)
    (pd : Option PredictionDriftResult) :
    overallHealth frs pd =
      if 2 ≤ frs.countP (fun r => r.severity == .high) then .critical
      else if (frs.any (fun r => r.status == .drifted) || predDrifted pd) then
        .warning
      else .healthy := rfl

lemma store_drift_report_ok {E : Type} (persist : MonitoringReport → Except E Unit)
    (r : MonitoringReport) : store_drift_report persist r = .ok () := by
  unfold store_drift_report
  cases persist r <;> rfl

lemma get_drift_report_ok {E : Type} (persist : MonitoringReport → Except E Unit)
    (cfg : DetectorConfig) (prob : KsProb) (bdf cdf : DataFrame)
    (preds : List ℚ) (perf : PerfMetrics) (mv : String) :
    get_drift_report persist cfg prob bdf cdf preds perf mv =
      .ok (if cdf.nRows = 0 then emptyReport mv
           else driftReportCore cfg prob bdf cdf preds perf mv) := by
  unfold get_drift_report
  split
  · rfl
  · simp only [store_drift_report_ok]

/-! Claim theorems. -/

/-- Claim C4: the severity of every feature result is determined from its PSI
drift score by the fixed bands (`none` below 0.1, `low` on `[0.1, 0.25)`,
`medium` on `[0.25, 0.5)`, `high` from 0.5 up), and severity is monotone in
the drift score. -/
theorem severity_fixed_bands (cfg : DetectorConfig) (prob : KsProb)
    (f : String) (b c : List (Option ℚ)) (p q : ℝ) :
    (featureReport cfg prob f b c).severity
        = severityOf ((featureReport cfg prob f b c).drift_score)
    ∧ (severityOf p = .none ↔ p < 0.1)
    ∧ (severityOf p = .low ↔ 0.1 ≤ p ∧ p < 0.25)
    ∧ (severityOf p = .medium ↔ 0.25 ≤ p ∧ p < 0.5)
    ∧ (severityOf p = .high ↔ 0.5 ≤ p)
    ∧ (p ≤ q → (severityOf p).rank ≤ (severityOf q).rank) :=
  ⟨rfl, severityOf_eq_none_iff p, severityOf_eq_low_iff p,
    severityOf_eq_medium_iff p, severityOf_eq_high_iff p, severityOf_mono p q⟩

/-- Witness for C4 at concrete drift scores. -/
theorem severity_fixed_bands_witness :
    severityOf (0.3 : ℝ) = .medium ∧ severityOf (0.05 : ℝ) = .none := by
  constructor
  · exact (severity_fixed_bands defaultConfig prob0 "amount" [] [] 0.3 0.3).2.2.2.1.mpr
      (by norm_num)
  · exact (severity_fixed_bands defaultConfig prob0 "amount" [] [] 0.05 0.05).2.1.mpr
      (by norm_num)

/-- Claim C5: `calculate_psi` first drops missing values from both inputs,
returns `0.0` when either cleaned sample is empty, and returns `0.0` when
the minimum of the union of both cleaned samples equals its maximum. -/
theorem psi_missing_and_degenerate (cfg : DetectorConfig)
    (b c : List (Option ℚ)) (nBins? : Option ℕ) :
    calculate_psi cfg b c nBins?
        = calculate_psi cfg ((dropNaN b).map some) ((dropNaN c).map some) nBins?
    ∧ (dropNaN b = [] ∨ dropNaN c = [] → calculate_psi cfg b c nBins? = 0)
    ∧ (min (listMin (dropNaN b)) (listMin (dropNaN c))
          = max (listMax (dropNaN b)) (listMax (dropNaN c)) →
        calculate_psi cfg b c nBins? = 0) := by
  refine ⟨?_, ?_, ?_⟩
  · simp only [calculate_psi, dropNaN_map_some]
  · intro h
    have hlen : (dropNaN b).length = 0 ∨ (dropNaN c).length = 0 := by
      rcases h with h | h
      · exact Or.inl (by rw [h]; rfl)
      · exact Or.inr (by rw [h]; rfl)
    simp only [calculate_psi]
    rw [if_pos hlen]
  · intro h
    simp only [calculate_psi]
    split
    · rfl
    · rfl

/-- Witness for C5: an all-missing current sample and a constant union both
give PSI `0.0`. -/
theorem psi_missing_and_degenerate_witness :
    calculate_psi defaultConfig [some 1, Option.none] [Option.none] Option.none = 0
    ∧ calculate_psi defaultConfig [some 5, some 5] [some 5] Option.none = 0 :=
  ⟨(psi_missing_and_degenerate defaultConfig [some 1, Option.none] [Option.none]
      Option.none).2.1 (Or.inr rfl),
    (psi_missing_and_degenerate defaultConfig [some 5, some 5] [some 5]
      Option.none).2.2 (by decide)⟩

/-- Claim C6: PSI of a sample against itself is `0` (for non-empty samples
without missing values and any bin count at least 2), and running
`detect_feature_drift` with the current frame equal to the baseline frame
yields status `stable` and severity `none` for every feature under the
default configuration. -/
theorem psi_self_zero_and_stable (cfg : DetectorConfig) (x : List ℚ) (n : ℕ)
    (hx : x ≠ []) (hn : 2 ≤ n) :
    calculate_psi cfg (x.map some) (x.map some) (some n) = 0
    ∧ ∀ (prob : KsProb) (df : DataFrame) (r : FeatureDriftResult),
        r ∈ detect_feature_drift defaultConfig prob df df Option.none →
        r.status = .stable ∧ r.severity = .none := by
  constructor
  · exact calculate_psi_self cfg (x.map some) (some n)
  · intro prob df r hr
    obtain ⟨f, rfl⟩ := mem_detect_feature_drift hr
    constructor
    · rw [featureReport_status, calculate_psi_self,
        if_neg (by norm_num [defaultConfig])]
    · rw [featureReport_severity, calculate_psi_self]
      exact (severityOf_eq_none_iff 0).mpr (by norm_num)

/-- Witness for C6 at a concrete two-point sample and bin count 2. -/
theorem psi_self_zero_and_stable_witness :
    calculate_psi defaultConfig ([(1 : ℚ), 2].map some) ([(1 : ℚ), 2].map some)
      (some 2) = 0 :=
  (psi_self_zero_and_stable defaultConfig [1, 2] 2 (by simp) (by norm_num)).1

/-- Claim C7: `calculate_psi` is non-negative on all inputs, and `ks_test`
always returns a statistic in `[0,1]` and a p-value in `[0,1]`. -/
theorem psi_nonneg_ks_in_unit (cfg : DetectorConfig) (prob : KsProb)
    (b c : List (Option ℚ)) (nBins? : Option ℕ) :
    0 ≤ calculate_psi cfg b c nBins?
    ∧ 0 ≤ (ks_test prob b c).1 ∧ (ks_test prob b c).1 ≤ 1
    ∧ 0 ≤ (ks_test prob b c).2 ∧ (ks_test prob b c).2 ≤ 1 :=
  ⟨calculate_psi_nonneg cfg b c nBins?, (ks_test_bounds prob b c).1,
    (ks_test_bounds prob b c).2.1, (ks_test_bounds prob b c).2.2.1,
    (ks_test_bounds prob b c).2.2.2⟩

/-- Claim C3: for every feature processed by `detect_feature_drift`, status
is `drifted` iff the PSI score is at least `psi_threshold`; the KS outputs
are reported but never influence the status (in particular, a low KS p-value
with PSI below the threshold still yields `stable`, and swapping the KS
p-value routine never changes any status). -/
theorem status_from_psi_only (cfg : DetectorConfig) (prob prob₁ prob₂ : KsProb)
    (bdf cdf : DataFrame) (names? : Option (List String)) :
    (∀ r ∈ detect_feature_drift cfg prob bdf cdf names?,
        (r.status = .drifted ↔ cfg.psi_threshold ≤ r.drift_score)
      ∧ (r.status = .stable ↔ r.drift_score < cfg.psi_threshold)
      ∧ (r.ks_p_value < cfg.ks_threshold → r.drift_score < cfg.psi_threshold →
          r.status = .stable))
    ∧ (detect_feature_drift cfg prob₁ bdf cdf names?).map FeatureDriftResult.status
        = (detect_feature_drift cfg prob₂ bdf cdf names?).map FeatureDriftResult.status := by
  constructor
  · intro r hr
    obtain ⟨f, rfl⟩ := mem_detect_feature_drift hr
    by_cases h : cfg.psi_threshold ≤ calculate_psi cfg (bdf.col f) (cdf.col f) Option.none
    · refine ⟨?_, ?_, ?_⟩
      · rw [featureReport_status, featureReport_score, if_pos h]
        exact iff_of_true rfl h
      · rw [featureReport_status, featureReport_score, if_pos h]
        exact iff_of_false (by decide) (not_lt.mpr h)
      · intro _ hlt
        rw [featureReport_score] at hlt
        exact absurd h (not_le.mpr hlt)
    · refine ⟨?_, ?_, ?_⟩
      · rw [featureReport_status, featureReport_score, if_neg h]
        exact iff_of_false (by decide) h
      · rw [featureReport_status, featureReport_score, if_neg h]
        exact iff_of_true rfl (not_le.mp h)
      · intro _ _
        rw [featureReport_status, if_neg h]
  · simp only [detect_feature_drift, List.map_map]
    exact List.map_congr_left (fun f _ => rfl)

/-- Witness for C3: on a concrete frame compared with itself (PSI `0`),
the single feature report of the detector has status `stable`, by the
status characterisation of the theorem. -/
theorem status_from_psi_only_witness :
    (featureReport defaultConfig prob0 "amount" (oneColDF.col "amount")
        (oneColDF.col "amount")).status = .stable := by
  have hmem : featureReport defaultConfig prob0 "amount" (oneColDF.col "amount")
      (oneColDF.col "amount")
      ∈ detect_feature_drift defaultConfig prob0 oneColDF oneColDF Option.none :=
    List.mem_singleton.mpr rfl
  have h := ((status_from_psi_only defaultConfig prob0 prob0 probHalf oneColDF
      oneColDF Option.none).1 _ hmem).2.1
  refine h.mpr ?_
  rw [featureReport_score, calculate_psi_self]
  norm_num [defaultConfig]

/-- Claim C1: the overall health is `critical` iff at least two feature
results have severity `high`; otherwise it is `warning` iff some feature is
`drifted` or the prediction drift result exists and is `drifted`; otherwise
it is `healthy`.  In particular a count of exactly two high severities gives
`critical`, while exactly one high severity among detector-produced results
(where `high` forces `drifted` whenever `psi_threshold ≤ 0.5`) gives
`warning`, not `critical`; and the health stored in any non-empty
orchestrator report is exactly this rule applied to its feature and
prediction drift fields. -/
theorem overall_health_rule (frs : List FeatureDriftResult)
    (pd : Option PredictionDriftResult) :
    (overallHealth frs pd = .critical ↔
        2 ≤ frs.countP (fun r => r.severity == .high))
    ∧ (frs.countP (fun r => r.severity == .high) < 2 →
        (overallHealth frs pd = .warning ↔
          (frs.any (fun r => r.status == .drifted) || predDrifted pd) = true))
    ∧ (frs.countP (fun r => r.severity == .high) < 2 →
        (frs.any (fun r => r.status == .drifted) || predDrifted pd) = false →
        overallHealth frs pd = .healthy)
    ∧ (frs.countP (fun r => r.severity == .high) = 2 →
        overallHealth frs pd = .critical)
    ∧ (frs.countP (fun r => r.severity == .high) = 1 →
        (∀ r ∈ frs, r.severity = .high → r.status = .drifted) →
        overallHealth frs pd = .warning ∧ overallHealth frs pd ≠ .critical)
    ∧ (∀ (cfg : DetectorConfig) (prob : KsProb) (f : String)
          (b c : List (Option ℚ)), cfg.psi_threshold ≤ 0.5 →
        (featureReport cfg prob f b c).severity = .high →
        (featureReport cfg prob f b c).status = .drifted)
    ∧ (∀ (E : Type) (persist : MonitoringReport → Except E Unit)
          (cfg : DetectorConfig) (prob : KsProb) (bdf cdf : DataFrame)
          (preds : List ℚ) (perf : PerfMetrics) (mv : String)
          (r : MonitoringReport),
        get_drift_report persist cfg prob bdf cdf preds perf mv = .ok r →
        cdf.nRows ≠ 0 →
        r.overall_status.health = overallHealth r.feature_drift r.prediction_drift) := by
  have hwarn : frs.countP (fun r => r.severity == .high) < 2 →
      (overallHealth frs pd = .warning ↔
        (frs.any (fun r => r.status == .drifted) || predDrifted pd) = true) := by
    intro hlt
    rw [overallHealth_eq, if_neg (not_le.mpr hlt)]
    cases hd : (frs.any (fun r => r.status == .drifted) || predDrifted pd)
    · simp
    · simp
  refine ⟨?_, hwarn, ?_, ?_, ?_, ?_, ?_⟩
  · by_cases h2 : 2 ≤ frs.countP (fun r => r.severity == .high)
    · rw [overallHealth_eq, if_pos h2]
      exact iff_of_true rfl h2
    · rw [overallHealth_eq, if_neg h2]
      refine iff_of_false ?_ h2
      cases hd : (frs.any (fun r => r.status == .drifted) || predDrifted pd)
      · simp
      · simp
  · intro hlt hfalse
    rw [overallHealth_eq, if_neg (not_le.mpr hlt), if_neg (by simp [hfalse])]
  · intro h2
    rw [overallHealth_eq, if_pos (le_of_eq h2.symm)]
  · intro h1 hcoh
    have hex : ∃ r ∈ frs, (fun r => r.severity == .high) r = true :=
      List.countP_pos_iff.mp (by omega)
    obtain ⟨r, hrmem, hrhigh⟩ := hex
    have hdr : r.status = .drifted := hcoh r hrmem (by simpa using hrhigh)
    have hany : frs.any (fun r => r.status == .drifted) = true :=
      List.any_eq_true.mpr ⟨r, hrmem, by simp [hdr]⟩
    have hw : overallHealth frs pd = .warning := by
      rw [overallHealth_eq, if_neg (by omega), if_pos (by simp [hany])]
    exact ⟨hw, by rw [hw]; decide⟩
  · intro cfg prob f b c hthr hsev
    rw [featureReport_severity] at hsev
    have h05 := (severityOf_eq_high_iff _).mp hsev
    rw [featureReport_status, if_pos (le_trans hthr h05)]
  · intro E persist cfg prob bdf cdf preds perf mv r hr hne
    rw [get_drift_report_ok, if_neg hne] at hr
    have hco := Except.ok.inj hr
    subst hco
    rfl

/-- Witness for C1 at concrete result lists: two high severities give
`critical`; one high among `none` / `low` gives `warning`, not `critical`. -/
theorem overall_health_rule_witness :
    overallHealth frsTwoHigh Option.none = .critical
    ∧ overallHealth frsOneHigh Option.none = .warning
    ∧ overallHealth frsOneHigh Option.none ≠ .critical := by
  refine ⟨?_, ?_, ?_⟩
  · exact (overall_health_rule frsTwoHigh Option.none).2.2.2.1 (by decide)
  · exact ((overall_health_rule frsOneHigh Option.none).2.2.2.2.1 (by decide)
      (by decide)).1
  · exact ((overall_health_rule frsOneHigh Option.none).2.2.2.2.1 (by decide)
      (by decide)).2

/-- Claim C2: an empty current window short-circuits to the defined empty
report — zero total predictions, health `unknown` with all drift and
degradation flags false, empty feature-drift and alert lists, no prediction
drift — and `unknown` is distinct from `healthy`. -/
theorem empty_window_empty_report {E : Type}
    (persist : MonitoringReport → Except E Unit) (cfg : DetectorConfig)
    (prob : KsProb) (bdf cdf : DataFrame) (preds : List ℚ)
    (perf : PerfMetrics) (mv : String) (h : cdf.nRows = 0) :
    get_drift_report persist cfg prob bdf cdf preds perf mv
        = .ok (emptyReport mv)
    ∧ (emptyReport mv).total_predictions = 0
    ∧ (emptyReport mv).overall_status.health = .unknown
    ∧ (emptyReport mv).overall_status.data_drift_detected = false
    ∧ (emptyReport mv).overall_status.concept_drift_detected = false
    ∧ (emptyReport mv).overall_status.performance_degraded = false
    ∧ (emptyReport mv).feature_drift = []
    ∧ (emptyReport mv).alerts = []
    ∧ (emptyReport mv).prediction_drift = Option.none
    ∧ Health.unknown ≠ Health.healthy := by
  refine ⟨?_, rfl, rfl, rfl, rfl, rfl, rfl, rfl, rfl, by decide⟩
  rw [get_drift_report_ok, if_pos h]

/-- Witness for C2 on the concrete empty frame. -/
theorem empty_window_empty_report_witness :
    get_drift_report persistOk defaultConfig prob0 oneColDF emptyDF [] perf0
        "xgb_v1.0.0" = .ok (emptyReport "xgb_v1.0.0") :=
  (empty_window_empty_report persistOk defaultConfig prob0 oneColDF emptyDF []
    perf0 "xgb_v1.0.0" rfl).1

/-- Claim C8: a persist action that throws is contained at the persistence
step — `store_drift_report` always succeeds, the monitoring cycle still
returns the fully computed report, and the result equals the result under a
persist action that always succeeds. -/
theorem persist_failure_contained {E : Type}
    (persist : MonitoringReport → Except E Unit) (cfg : DetectorConfig)
    (prob : KsProb) (bdf cdf : DataFrame) (preds : List ℚ)
    (perf : PerfMetrics) (mv : String) :
    (∀ r, store_drift_report persist r = .ok ())
    ∧ get_drift_report persist cfg prob bdf cdf preds perf mv
        = .ok (if cdf.nRows = 0 then emptyReport mv
               else driftReportCore cfg prob bdf cdf preds perf mv)
    ∧ get_drift_report persist cfg prob bdf cdf preds perf mv
        = get_drift_report (fun _ => .ok ()) cfg prob bdf cdf preds perf mv := by
  refine ⟨fun r => store_drift_report_ok persist r,
    get_drift_report_ok persist cfg prob bdf cdf preds perf mv, ?_⟩
  rw [get_drift_report_ok, get_drift_report_ok]

/-- Claim C9: within one worker monitoring cycle, a failure in any of the
three sub-steps does not prevent the others from executing, and no exception
escapes `run_monitoring_cycle` (a commit failure included), so a failed
cycle never terminates the scheduling loop. -/
theorem worker_cycle_isolated {E : Type}
    (metrics drift health commit : Except E Unit) :
    (run_monitoring_cycle metrics drift health commit).1
        = [.metrics, .drift, .health]
    ∧ (run_monitoring_cycle metrics drift health commit).2 = .ok () := by
  cases metrics <;> cases drift <;> cases health <;> cases commit <;>
    exact ⟨rfl, rfl⟩

/-- Claim C10: every report returned by the orchestrator — the empty report
and the full report alike — has `performance_degraded = false`. -/
theorem performance_degraded_always_false {E : Type}
    (persist : MonitoringReport → Except E Unit) (cfg : DetectorConfig)
    (prob : KsProb) (bdf cdf : DataFrame) (preds : List ℚ)
    (perf : PerfMetrics) (mv : String) (r : MonitoringReport)
    (h : get_drift_report persist cfg prob bdf cdf preds perf mv = .ok r) :
    r.overall_status.performance_degraded = false := by
  rw [get_drift_report_ok] at h
  have hco := Except.ok.inj h
  subst hco
  split <;> rfl

/-- Witness for C10 on the concrete empty window. -/
theorem performance_degraded_always_false_witness :
    (emptyReport "xgb_v1.0.0").overall_status.performance_degraded = false :=
  performance_degraded_always_false persistOk defaultConfig prob0 oneColDF
    emptyDF [] perf0 "xgb_v1.0.0" (emptyReport "xgb_v1.0.0") rfl

end DriftSpec
